import Mathlib

/- Shallow embedding of the Airtable automation scripts in
src/mymap_airtable_api.js (and the overlapping copy in src/unnamed/part_000).

Modelling conventions:
- A record cell value is an Option String: none models an absent field or a
  null cell, some s a present value. JS truthiness on such a value is jsTruthy
  (null and the empty string are falsy).
- Host primitives are explicit oracle arguments: fetch outcomes are a
  FetchResult (an HTTP status, or a rejected promise), the Promise.race of the
  map-image variant is a RaceOutcome saying which promise settled first,
  JSON.parse is a function argument, and the createFieldAsync SDK call is an
  Except String Unit argument.
- Every dispatcher returns its Except outcome together with the list of HTTP
  requests it issued to the remote job endpoints, in issue order. Requests to
  the record-store SDK (selectRecordAsync, createFieldAsync, getConfigAsync)
  are not HTTP requests to a remote job endpoint and do not appear in the list.
- The error taxonomy of the spec (ValidationError, RemoteError, TimeoutError)
  is mapped onto the throw sites of the source: each constructor carries the
  exact message the source builds with new Error. -/

inductive Json where
  | null : Json
  | bool (b : Bool) : Json
  | num (n : Int) : Json
  | str (s : String) : Json
  | arr (elems : List Json) : Json
  | obj (fields : List (String × Json)) : Json
deriving Repr

/-- Field lookup in a JSON object, first binding wins; none on non-objects. -/
def Json.lookupField : Json → String → Option Json
  | Json.obj fields, key => (fields.find? (fun p => p.1 == key)).map (fun p => p.2)
  | _, _ => none

/-- The field list of a JSON object, empty for non-objects (models the object
spread of a parsed value in sync_to_wordpress). -/
def Json.objFields : Json → List (String × Json)
  | Json.obj fields => fields
  | _ => []

structure HttpRequest where
  url : String
  method : String
  headers : List (String × String)
  body : Json
deriving Repr

structure Record where
  cells : List (String × String)
deriving Repr

/-- record.getCellValue(column): none when the column is absent or null. -/
def Record.getCellValue (r : Record) (column : String) : Option String :=
  (r.cells.find? (fun p => p.1 == column)).map (fun p => p.2)

/-- record.getCellValueAsString(column): the empty string for absent cells. -/
def Record.getCellValueAsString (r : Record) (column : String) : String :=
  (r.getCellValue column).getD ""

/-- JS truthiness of a cell value: null and the empty string are falsy. -/
def jsTruthy : Option String → Bool
  | none => false
  | some s => !(s == "")

inductive JsError where
  | validation (msg : String) : JsError
  | remote (status : Nat) (msg : String) : JsError
  | timeout (msg : String) : JsError
  | network (msg : String) : JsError
  | sdkError (msg : String) : JsError
deriving Repr, DecidableEq

/-- Outcome of one fetch call: a settled response with its status, or a
rejected promise (network failure). -/
inductive FetchResult where
  | resp (status : Nat) : FetchResult
  | reject (msg : String) : FetchResult
deriving Repr, DecidableEq

/-- response.ok of the settled response: status in the range 200..299. -/
def FetchResult.isOkResp : FetchResult → Bool
  | FetchResult.resp status => decide (200 ≤ status ∧ status < 300)
  | FetchResult.reject _ => false

/-- Which promise settles the Promise.race of the map-image variant first:
the fetch (with a status or a rejection), or the 120 s timer. -/
inductive RaceOutcome where
  | fetchFirst (status : Nat) : RaceOutcome
  | fetchErrFirst (msg : String) : RaceOutcome
  | timerFirst : RaceOutcome
deriving Repr, DecidableEq

/-- create_map_image: validates the template and prompt cells, posts one
request to the new_map_image endpoint, and races it against a 120000 ms timer.
The request is issued before the race is decided, so it appears in the trace
even when the timer wins (fire-and-forget). -/
def create_map_image (tpl_column prompt_column output_column record_id table_id base_id : String)
    (record : Record) (race : RaceOutcome) :
    Except JsError Unit × List HttpRequest :=
  let tpl := record.getCellValue tpl_column
  let prompt := record.getCellValue prompt_column
  if !(jsTruthy tpl) || !(jsTruthy prompt) then
    (Except.error (JsError.validation "Missing template or prompt"), [])
  else
    let req : HttpRequest :=
      { url := "https://jobs.mymap.ai/jobs/new_map_image/run"
        method := "POST"
        headers := []
        body := Json.obj
          [("base_id", Json.str base_id),
           ("table_id", Json.str table_id),
           ("record_id", Json.str record_id),
           ("output_column", Json.str output_column),
           ("visuals", Json.arr
             [Json.obj [("tpl", Json.str (tpl.getD "")),
                        ("prompt", Json.str (prompt.getD ""))]])] }
    match race with
    | RaceOutcome.timerFirst =>
        (Except.error (JsError.timeout "Request timed out after 120 seconds"), [req])
    | RaceOutcome.fetchErrFirst msg =>
        (Except.error (JsError.network msg), [req])
    | RaceOutcome.fetchFirst status =>
        if 200 ≤ status ∧ status < 300 then (Except.ok (), [req])
        else
          (Except.error
            (JsError.remote status ("API request failed with status " ++ toString status)),
           [req])

/-- getSystemPrompt of ai_generate: filter the Prompts table on the Name cell
as a string and return the Prompt cell of the first match, none when no record
matches. -/
def getSystemPrompt (promptsTable : List Record) (promptName : String) : Option String :=
  match promptsTable.filter (fun record => record.getCellValueAsString "Name" == promptName) with
  | [] => none
  | record :: _ => record.getCellValue "Prompt"

/-- The user message of ai_generate: each input column rendered as an XML-like
fragment around its cell value read as a string, joined by newlines. -/
def ai_user_msg (input_columns : List String) (record : Record) : String :=
  String.intercalate "\n"
    (input_columns.map (fun column =>
      "<" ++ column ++ ">" ++ record.getCellValueAsString column ++ "</" ++ column ++ ">"))

/-- ai_generate: looks up the named system prompt before touching the record,
builds the XML-wrapped user message, and posts one request to the ai2col
endpoint. The source awaits the fetch without reading response.ok, so any
settled status yields success; only a rejected fetch propagates an error. -/
def ai_generate (input_columns : List String)
    (system_prompt_name output_column record_id table_id base_id model : String)
    (openai_json_format : Bool) (promptsTable : List Record) (record : Record)
    (fr : FetchResult) : Except JsError Unit × List HttpRequest :=
  let system_prompt := getSystemPrompt promptsTable system_prompt_name
  if !(jsTruthy system_prompt) then
    (Except.error
      (JsError.validation ("Failed to retrieve system prompt: " ++ system_prompt_name)), [])
  else
    let user_msg := ai_user_msg input_columns record
    let req : HttpRequest :=
      { url := "https://jobs.mymap.ai/job/ai2col/run"
        method := "POST"
        headers := []
        body := Json.obj
          [("base_id", Json.str base_id),
           ("table_id", Json.str table_id),
           ("record_id", Json.str record_id),
           ("output_column", Json.str output_column),
           ("model", Json.str model),
           ("system_prompt", Json.str (system_prompt.getD "")),
           ("user_msg", Json.str user_msg),
           ("openai_json_format", Json.bool openai_json_format)] }
    match fr with
    | FetchResult.reject msg => (Except.error (JsError.network msg), [req])
    | FetchResult.resp _ => (Except.ok (), [req])

structure LanguageEntry where
  column : String
  name : String
deriving Repr, DecidableEq

/-- The per-language system prompt template of translate_i18n
(mymap_airtable_api.js version). -/
def translate_getSystemPrompt (languageName : String) : String :=
  "\nI am an SEO writing master in " ++ languageName ++
  ". I am here to translate a page content into " ++ languageName ++
  ". Make sure you read the entire content first, not just translate sentence by sentence. Write like native speakers.\n\nGuideline\n- The input is in json format. Translate values in all JSON keys. Do not change the keys\n- Do not translate the \"slug\" key & value\n- If the value for translation is html dom format, keep the html tags as original, only translate the content\n- Output the JSON only, no extra message or code block.\n- Maintain SEO best practices and adapt content appropriately for a " ++
  languageName ++
  "-speaking audience.\n- keep original json key name, do not change key names in your output!\n        "

/-- Escape of one character under JSON.stringify. -/
def jsonEscapeChar (c : Char) : String :=
  if c = '"' then "\\\""
  else if c = '\\' then "\\\\"
  else if c = '\n' then "\\n"
  else if c = '\t' then "\\t"
  else if c = '\r' then "\\r"
  else String.singleton c

/-- JSON.stringify of a string value. -/
def jsonStringifyString (s : String) : String :=
  "\"" ++ String.join (s.toList.map jsonEscapeChar) ++ "\""

/-- JSON.stringify of a cell value: null cells stringify to the literal
null. -/
def jsonStringifyCell : Option String → String
  | none => "null"
  | some s => jsonStringifyString s

/-- The request translate_i18n posts for one language: the ai2col payload with
the output column taken from the language entry. -/
def translate_mkRequest (record_id table_id base_id model user_msg : String)
    (language : LanguageEntry) : HttpRequest :=
  { url := "https://jobs.mymap.ai/jobs/ai2col/run"
    method := "POST"
    headers := []
    body := Json.obj
      [("base_id", Json.str base_id),
       ("table_id", Json.str table_id),
       ("record_id", Json.str record_id),
       ("output_column", Json.str language.column),
       ("model", Json.str model),
       ("system_prompt", Json.str (translate_getSystemPrompt language.name)),
       ("user_msg", Json.str user_msg),
       ("openai_json_format", Json.bool true)] }

/-- The sequential for-of loop of translate_i18n: issue one request per
language in list order; a rejected fetch or a non-ok status is rethrown by the
catch block and stops the loop. The oracle fetchO gives the outcome of the
k-th issued fetch. -/
def translate_go (fetchO : Nat → FetchResult) (mkReq : LanguageEntry → HttpRequest) :
    List LanguageEntry → Nat → Except JsError Unit × List HttpRequest
  | [], _ => (Except.ok (), [])
  | language :: rest, k =>
      let req := mkReq language
      match fetchO k with
      | FetchResult.reject msg => (Except.error (JsError.network msg), [req])
      | FetchResult.resp status =>
          if 200 ≤ status ∧ status < 300 then
            let next := translate_go fetchO mkReq rest (k + 1)
            (next.1, req :: next.2)
          else
            (Except.error
              (JsError.remote status ("HTTP error! status: " ++ toString status)), [req])

/-- The error translate_i18n propagates from a failed sub-request. -/
def translate_errOf : FetchResult → JsError
  | FetchResult.reject msg => JsError.network msg
  | FetchResult.resp status =>
      JsError.remote status ("HTTP error! status: " ++ toString status)

/-- translate_i18n: stringify the input JSON cell once, then translate to all
languages sequentially. -/
def translate_i18n (input_json_column : String) (languages : List LanguageEntry)
    (record_id table_id base_id model : String) (record : Record)
    (fetchO : Nat → FetchResult) : Except JsError Unit × List HttpRequest :=
  let input_json := record.getCellValue input_json_column
  let user_msg := jsonStringifyCell input_json
  translate_go fetchO (translate_mkRequest record_id table_id base_id model user_msg) languages 0

/-- google_search: validates the keywords cell read as a string, posts one
request to the keywords_search endpoint. The source awaits the fetch without
reading response.ok, so any settled status yields success. -/
def google_search (input_column output_column record_id table_id base_id : String)
    (record : Record) (fr : FetchResult) : Except JsError Unit × List HttpRequest :=
  let keywords := record.getCellValueAsString input_column
  if keywords == "" then
    (Except.error (JsError.validation "No keywords found"), [])
  else
    let req : HttpRequest :=
      { url := "https://jobs.mymap.ai/job/keywords_search/run"
        method := "POST"
        headers := []
        body := Json.obj
          [("base_id", Json.str base_id),
           ("table_id", Json.str table_id),
           ("record_id", Json.str record_id),
           ("output_column", Json.str output_column),
           ("keywords", Json.str keywords)] }
    match fr with
    | FetchResult.reject msg => (Except.error (JsError.network msg), [req])
    | FetchResult.resp _ => (Except.ok (), [req])

/-- crawl_url_content: validates the URL cell, posts one request to the
url2text endpoint, and rethrows on a rejected fetch or a non-ok status. -/
def crawl_url_content (input_column output_column record_id table_id base_id : String)
    (record : Record) (fr : FetchResult) : Except JsError Unit × List HttpRequest :=
  let url := record.getCellValue input_column
  if !(jsTruthy url) then
    (Except.error (JsError.validation "No URL found"), [])
  else
    let req : HttpRequest :=
      { url := "https://jobs.mymap.ai/job/url2text/run"
        method := "POST"
        headers := []
        body := Json.obj
          [("base_id", Json.str base_id),
           ("table_id", Json.str table_id),
           ("record_id", Json.str record_id),
           ("output_column", Json.str output_column),
           ("url", Json.str (url.getD ""))] }
    match fr with
    | FetchResult.reject msg => (Except.error (JsError.network msg), [req])
    | FetchResult.resp status =>
        if 200 ≤ status ∧ status < 300 then (Except.ok (), [req])
        else
          (Except.error
            (JsError.remote status ("API request failed with status " ++ toString status)),
           [req])

structure SyncResult where
  result : Except JsError Unit
  requests : List HttpRequest
  columns : List String
  createdField : Bool
deriving Repr

/-- A cell value placed directly into a JSON payload (post_en_id): null cells
become JSON null. -/
def jsonOfCell : Option String → Json
  | none => Json.null
  | some s => Json.str s

/-- The wp_post_mymap request of sync_to_wordpress: the parsed post data
spread into the post object together with id, status, author and empty
categories, tags and meta, plus the identifying context fields. -/
def sync_request (lang author_id_column record_id table_id base_id : String)
    (record : Record) (post_data_json : Json) (post_id_column : String) : HttpRequest :=
  let post_id := record.getCellValue post_id_column
  let post_id_en := record.getCellValue "post_id_en"
  let author_id := record.getCellValue author_id_column
  { url := "https://jobs.mymap.ai/job/wp_post_mymap/run"
    method := "POST"
    headers := [("Content-Type", "application/json")]
    body := Json.obj
      [("post", Json.obj (post_data_json.objFields ++
          [("id", if jsTruthy post_id then Json.str (post_id.getD "") else Json.null),
           ("status", Json.str "publish"),
           ("author", Json.str (author_id.getD "")),
           ("categories", Json.arr []),
           ("tags", Json.arr []),
           ("meta", Json.obj [])])),
       ("post_en_id", jsonOfCell post_id_en),
       ("post_lang", Json.str lang),
       ("base_id", Json.str base_id),
       ("table_id", Json.str table_id),
       ("record_id", Json.str record_id),
       ("post_id_column", Json.str post_id_column)] }

/-- The part of sync_to_wordpress after the post-id column provisioning: read
the cells, validate content and author, JSON.parse the content, build the
wp_post_mymap payload and post it. The columns and createdField fields record
the table schema as left by the provisioning step. The source re-fetches the
record after creating the column; creating a column does not alter existing
cells, so the model keeps the same record snapshot (the fresh column reads as
null either way). -/
def sync_after_provision (lang author_id_column record_id table_id base_id : String)
    (cols : List String) (record : Record) (parse : String → Except String Json)
    (fr : FetchResult) (post_id_column : String) (created : Bool) : SyncResult :=
  let post_data := record.getCellValue lang
  if !(jsTruthy post_data) then
    { result := Except.error (JsError.validation "No content found")
      requests := [], columns := cols, createdField := created }
  else if !(jsTruthy (record.getCellValue author_id_column)) then
    { result := Except.error (JsError.validation "No author ID found")
      requests := [], columns := cols, createdField := created }
  else
    match parse (post_data.getD "") with
    | Except.error msg =>
        { result := Except.error (JsError.sdkError msg)
          requests := [], columns := cols, createdField := created }
    | Except.ok post_data_json =>
        let req : HttpRequest :=
          sync_request lang author_id_column record_id table_id base_id record
            post_data_json post_id_column
        match fr with
        | FetchResult.reject msg =>
            { result := Except.error (JsError.network msg)
              requests := [req], columns := cols, createdField := created }
        | FetchResult.resp status =>
            if 200 ≤ status ∧ status < 300 then
              { result := Except.ok (), requests := [req], columns := cols,
                createdField := created }
            else
              { result := Except.error
                  (JsError.remote status ("API request failed with status " ++ toString status))
                requests := [req], columns := cols, createdField := created }

/-- sync_to_wordpress: derives the post id column name post_id_<lang>, creates
that column when the table configuration does not list it (the createField
oracle models createFieldAsync, whose failure is rethrown), then continues
with sync_after_provision. tableCols is the column name list of the table
configuration. -/
def sync_to_wordpress (lang author_id_column record_id table_id base_id : String)
    (tableCols : List String) (record : Record)
    (createField : Except String Unit) (parse : String → Except String Json)
    (fr : FetchResult) : SyncResult :=
  let post_id_column := "post_id_" ++ lang
  if tableCols.any (fun column => column == post_id_column) then
    sync_after_provision lang author_id_column record_id table_id base_id
      tableCols record parse fr post_id_column false
  else
    match createField with
    | Except.error msg =>
        { result := Except.error (JsError.sdkError msg)
          requests := [], columns := tableCols, createdField := false }
    | Except.ok _ =>
        sync_after_provision lang author_id_column record_id table_id base_id
          (tableCols ++ [post_id_column]) record parse fr post_id_column true

/-- Helper: when the content cell is falsy, sync_after_provision fails with
the No content found validation error and issues no request. -/
theorem sync_after_provision_no_content
    (lang author_id_column record_id table_id base_id : String) (cols : List String)
    (record : Record) (parse : String → Except String Json) (fr : FetchResult)
    (pcol : String) (created : Bool)
    (h : jsTruthy (record.getCellValue lang) = false) :
    sync_after_provision lang author_id_column record_id table_id base_id cols record
        parse fr pcol created =
      { result := Except.error (JsError.validation "No content found")
        requests := [], columns := cols, createdField := created } := by
  simp [sync_after_provision, h]

/-- Helper: when the content cell is truthy and the author cell falsy,
sync_after_provision fails with the No author ID found validation error and
issues no request. -/
theorem sync_after_provision_no_author
    (lang author_id_column record_id table_id base_id : String) (cols : List String)
    (record : Record) (parse : String → Except String Json) (fr : FetchResult)
    (pcol : String) (created : Bool)
    (h1 : jsTruthy (record.getCellValue lang) = true)
    (h2 : jsTruthy (record.getCellValue author_id_column) = false) :
    sync_after_provision lang author_id_column record_id table_id base_id cols record
        parse fr pcol created =
      { result := Except.error (JsError.validation "No author ID found")
        requests := [], columns := cols, createdField := created } := by
  simp [sync_after_provision, h1, h2]

/-- Helper: sync_after_provision returns the columns and created flag it was
given, in every control-flow branch. -/
theorem sync_after_provision_state
    (lang author_id_column record_id table_id base_id : String) (cols : List String)
    (record : Record) (parse : String → Except String Json) (fr : FetchResult)
    (pcol : String) (created : Bool) :
    (sync_after_provision lang author_id_column record_id table_id base_id cols record
        parse fr pcol created).columns = cols ∧
    (sync_after_provision lang author_id_column record_id table_id base_id cols record
        parse fr pcol created).createdField = created := by
  constructor <;>
  · simp only [sync_after_provision]
    repeat' split
    all_goals rfl

/-- Helper: when the post-id column is absent from the table configuration and
createFieldAsync succeeds, sync_to_wordpress appends the column and continues
with the created flag set. -/
theorem sync_to_wordpress_provision_absent
    (lang author_id_column record_id table_id base_id : String) (cols : List String)
    (record : Record) (parse : String → Except String Json) (fr : FetchResult)
    (h : cols.any (fun column => column == "post_id_" ++ lang) = false) :
    sync_to_wordpress lang author_id_column record_id table_id base_id cols record
        (Except.ok ()) parse fr =
      sync_after_provision lang author_id_column record_id table_id base_id
        (cols ++ ["post_id_" ++ lang]) record parse fr ("post_id_" ++ lang) true := by
  simp [sync_to_wordpress, h]

/-- Helper: when the post-id column is already present, sync_to_wordpress does
not create a field and continues with the created flag unset. -/
theorem sync_to_wordpress_provision_present
    (lang author_id_column record_id table_id base_id : String) (cols : List String)
    (record : Record) (createField : Except String Unit)
    (parse : String → Except String Json) (fr : FetchResult)
    (h : cols.any (fun column => column == "post_id_" ++ lang) = true) :
    sync_to_wordpress lang author_id_column record_id table_id base_id cols record
        createField parse fr =
      sync_after_provision lang author_id_column record_id table_id base_id
        cols record parse fr ("post_id_" ++ lang) false := by
  simp [sync_to_wordpress, h]

/-- C1: for every dispatcher variant and its declared required input cells, an
empty or absent required cell makes the call fail with the corresponding
ValidationError message and no HTTP request is issued to the remote endpoint.
create_map_image requires the template and prompt cells, google_search the
keywords cell, crawl_url_content the URL cell, and sync_to_wordpress the
content and author cells; ai_generate and translate_i18n declare no required
record cells, so the property is vacuous for them. -/
theorem c1_required_input_validation
    (tpl_column prompt_column output_column record_id table_id base_id : String)
    (record : Record) (race : RaceOutcome)
    (ic oc : String) (grec : Record) (gfr : FetchResult)
    (cic coc : String) (crec : Record) (cfr : FetchResult)
    (lang author_id_column srecord_id stable_id sbase_id : String)
    (tableCols : List String) (srec : Record) (parse : String → Except String Json)
    (sfr : FetchResult) :
    (jsTruthy (record.getCellValue tpl_column) = false ∨
        jsTruthy (record.getCellValue prompt_column) = false →
      create_map_image tpl_column prompt_column output_column record_id table_id base_id
          record race =
        (Except.error (JsError.validation "Missing template or prompt"), [])) ∧
    (grec.getCellValueAsString ic = "" →
      google_search ic oc record_id table_id base_id grec gfr =
        (Except.error (JsError.validation "No keywords found"), [])) ∧
    (jsTruthy (crec.getCellValue cic) = false →
      crawl_url_content cic coc record_id table_id base_id crec cfr =
        (Except.error (JsError.validation "No URL found"), [])) ∧
    (jsTruthy (srec.getCellValue lang) = false →
      (sync_to_wordpress lang author_id_column srecord_id stable_id sbase_id tableCols srec
          (Except.ok ()) parse sfr).result =
        Except.error (JsError.validation "No content found") ∧
      (sync_to_wordpress lang author_id_column srecord_id stable_id sbase_id tableCols srec
          (Except.ok ()) parse sfr).requests = []) ∧
    (jsTruthy (srec.getCellValue lang) = true →
      jsTruthy (srec.getCellValue author_id_column) = false →
      (sync_to_wordpress lang author_id_column srecord_id stable_id sbase_id tableCols srec
          (Except.ok ()) parse sfr).result =
        Except.error (JsError.validation "No author ID found") ∧
      (sync_to_wordpress lang author_id_column srecord_id stable_id sbase_id tableCols srec
          (Except.ok ()) parse sfr).requests = []) := by
  refine ⟨?_, ?_, ?_, ?_, ?_⟩
  · rintro (h | h) <;> simp [create_map_image, h]
  · intro h
    simp [google_search, h]
  · intro h
    simp [crawl_url_content, h]
  · intro h
    cases hp : tableCols.any (fun column => column == "post_id_" ++ lang) with
    | true =>
        rw [sync_to_wordpress_provision_present _ _ _ _ _ _ _ _ _ _ hp,
          sync_after_provision_no_content _ _ _ _ _ _ _ _ _ _ _ h]
        exact ⟨rfl, rfl⟩
    | false =>
        rw [sync_to_wordpress_provision_absent _ _ _ _ _ _ _ _ _ hp,
          sync_after_provision_no_content _ _ _ _ _ _ _ _ _ _ _ h]
        exact ⟨rfl, rfl⟩
  · intro h1 h2
    cases hp : tableCols.any (fun column => column == "post_id_" ++ lang) with
    | true =>
        rw [sync_to_wordpress_provision_present _ _ _ _ _ _ _ _ _ _ hp,
          sync_after_provision_no_author _ _ _ _ _ _ _ _ _ _ _ h1 h2]
        exact ⟨rfl, rfl⟩
    | false =>
        rw [sync_to_wordpress_provision_absent _ _ _ _ _ _ _ _ _ hp,
          sync_after_provision_no_author _ _ _ _ _ _ _ _ _ _ _ h1 h2]
        exact ⟨rfl, rfl⟩

/-- Witness for c1: on concrete records with the required cells absent or
empty, each variant fails with its ValidationError and issues no request. -/
theorem c1_witness :
    (create_map_image "Tpl" "Prompt" "Out" "rec1" "tbl1" "app1" (Record.mk [("Tpl", "")])
        RaceOutcome.timerFirst =
      (Except.error (JsError.validation "Missing template or prompt"), [])) ∧
    (google_search "Kw" "Out" "rec1" "tbl1" "app1" (Record.mk []) (FetchResult.resp 200) =
      (Except.error (JsError.validation "No keywords found"), [])) ∧
    (crawl_url_content "Url" "Out" "rec1" "tbl1" "app1" (Record.mk []) (FetchResult.resp 200) =
      (Except.error (JsError.validation "No URL found"), [])) ∧
    ((sync_to_wordpress "en" "Author" "rec1" "tbl1" "app1" [] (Record.mk [])
        (Except.ok ()) (fun _ => Except.error "unused") (FetchResult.resp 200)).result =
      Except.error (JsError.validation "No content found")) ∧
    ((sync_to_wordpress "en" "Author" "rec1" "tbl1" "app1" ["post_id_en"]
        (Record.mk [("en", "content")])
        (Except.ok ()) (fun _ => Except.error "unused") (FetchResult.resp 200)).result =
      Except.error (JsError.validation "No author ID found")) := by
  have h1 := c1_required_input_validation "Tpl" "Prompt" "Out" "rec1" "tbl1" "app1"
    (Record.mk [("Tpl", "")]) RaceOutcome.timerFirst "Kw" "Out" (Record.mk [])
    (FetchResult.resp 200) "Url" "Out" (Record.mk []) (FetchResult.resp 200)
    "en" "Author" "rec1" "tbl1" "app1" [] (Record.mk [])
    (fun _ => Except.error "unused") (FetchResult.resp 200)
  have h2 := c1_required_input_validation "Tpl" "Prompt" "Out" "rec1" "tbl1" "app1"
    (Record.mk [("Tpl", "")]) RaceOutcome.timerFirst "Kw" "Out" (Record.mk [])
    (FetchResult.resp 200) "Url" "Out" (Record.mk []) (FetchResult.resp 200)
    "en" "Author" "rec1" "tbl1" "app1" ["post_id_en"] (Record.mk [("en", "content")])
    (fun _ => Except.error "unused") (FetchResult.resp 200)
  exact ⟨h1.1 (Or.inl (by decide)), h1.2.1 (by decide), h1.2.2.1 (by decide),
    (h1.2.2.2.1 (by decide)).1, (h2.2.2.2.2 (by decide) (by decide)).1⟩

/-- C4: in the map-image variant, when the 120 s timer settles first the call
fails with the TimeoutError message, and when the fetch settles first with a
2xx status the call succeeds, however close the response was to the
deadline. -/
theorem c4_timeout_race
    (tpl_column prompt_column output_column record_id table_id base_id : String)
    (record : Record)
    (h1 : jsTruthy (record.getCellValue tpl_column) = true)
    (h2 : jsTruthy (record.getCellValue prompt_column) = true) :
    ((create_map_image tpl_column prompt_column output_column record_id table_id base_id
        record RaceOutcome.timerFirst).1 =
      Except.error (JsError.timeout "Request timed out after 120 seconds")) ∧
    ∀ status, 200 ≤ status → status < 300 →
      (create_map_image tpl_column prompt_column output_column record_id table_id base_id
          record (RaceOutcome.fetchFirst status)).1 = Except.ok () := by
  constructor
  · simp [create_map_image, h1, h2]
  · intro status hs1 hs2
    simp [create_map_image, h1, h2, hs1, hs2]

/-- Witness for c4: with both cells present, the timer branch yields the
timeout error and a 299 response yields success. -/
theorem c4_witness :
    ((create_map_image "Tpl" "Prompt" "Out" "rec1" "tbl1" "app1"
        (Record.mk [("Tpl", "castle"), ("Prompt", "sunset")]) RaceOutcome.timerFirst).1 =
      Except.error (JsError.timeout "Request timed out after 120 seconds")) ∧
    ((create_map_image "Tpl" "Prompt" "Out" "rec1" "tbl1" "app1"
        (Record.mk [("Tpl", "castle"), ("Prompt", "sunset")])
        (RaceOutcome.fetchFirst 299)).1 = Except.ok ()) := by
  have h := c4_timeout_race "Tpl" "Prompt" "Out" "rec1" "tbl1" "app1"
    (Record.mk [("Tpl", "castle"), ("Prompt", "sunset")]) (by decide) (by decide)
  exact ⟨h.1, h.2 299 (by decide) (by decide)⟩

/-- C7: when no record of the Prompts table has a Name cell equal to the given
system prompt name, ai_generate fails with the ValidationError message naming
the prompt, before any HTTP request is issued. -/
theorem c7_missing_system_prompt (input_columns : List String)
    (system_prompt_name output_column record_id table_id base_id model : String)
    (openai_json_format : Bool) (promptsTable : List Record) (record : Record)
    (fr : FetchResult)
    (h : ∀ r ∈ promptsTable, r.getCellValueAsString "Name" ≠ system_prompt_name) :
    ai_generate input_columns system_prompt_name output_column record_id table_id base_id
        model openai_json_format promptsTable record fr =
      (Except.error
        (JsError.validation ("Failed to retrieve system prompt: " ++ system_prompt_name)),
       []) := by
  have hfilter : promptsTable.filter
      (fun r => r.getCellValueAsString "Name" == system_prompt_name) = [] := by
    rw [List.filter_eq_nil_iff]
    intro a ha
    simp [h a ha]
  simp [ai_generate, getSystemPrompt, hfilter, jsTruthy]

/-- Witness for c7: a Prompts table with one differently named record makes a
concrete ai_generate call fail with the lookup ValidationError and no
request. -/
theorem c7_witness :
    ai_generate ["Topic"] "seo_writer" "Out" "rec1" "tbl1" "app1" "gpt-4o" false
        [Record.mk [("Name", "other_prompt"), ("Prompt", "text")]]
        (Record.mk [("Topic", "castles")]) (FetchResult.resp 200) =
      (Except.error
        (JsError.validation "Failed to retrieve system prompt: seo_writer"), []) := by
  have h := c7_missing_system_prompt ["Topic"] "seo_writer" "Out" "rec1" "tbl1" "app1"
    "gpt-4o" false [Record.mk [("Name", "other_prompt"), ("Prompt", "text")]]
    (Record.mk [("Topic", "castles")]) (FetchResult.resp 200) (by decide)
  exact h

/-- Helper: when every fetch from index k on succeeds with an ok status, the
translation loop succeeds and issues exactly one request per language, in
list order. -/
theorem translate_go_all_ok (fetchO : Nat → FetchResult) (mkReq : LanguageEntry → HttpRequest)
    (langs : List LanguageEntry) (k : Nat)
    (h : ∀ j, j < langs.length → (fetchO (k + j)).isOkResp = true) :
    translate_go fetchO mkReq langs k = (Except.ok (), langs.map mkReq) := by
  induction langs generalizing k with
  | nil => rfl
  | cons language rest ih =>
      have h0 : (fetchO k).isOkResp = true := by
        have := h 0 (Nat.succ_pos _)
        rwa [Nat.add_zero] at this
      have hrest : ∀ j, j < rest.length → (fetchO (k + 1 + j)).isOkResp = true := by
        intro j hj
        have := h (j + 1) (Nat.succ_lt_succ hj)
        rwa [show k + (j + 1) = k + 1 + j by omega] at this
      cases hfk : fetchO k with
      | reject msg => rw [hfk] at h0; simp [FetchResult.isOkResp] at h0
      | resp status =>
          rw [hfk] at h0
          simp only [FetchResult.isOkResp, decide_eq_true_eq] at h0
          simp [translate_go, hfk, h0, ih (k + 1) hrest]

/-- Helper: if the first m fetches from index k on succeed and the next one
fails (rejected or non-2xx), the translation loop stops with the error of the
failed fetch after issuing exactly the first m + 1 requests. -/
theorem translate_go_fail (fetchO : Nat → FetchResult) (mkReq : LanguageEntry → HttpRequest)
    (langs : List LanguageEntry) (k m : Nat)
    (hm : m < langs.length)
    (hok : ∀ j, j < m → (fetchO (k + j)).isOkResp = true)
    (hfail : (fetchO (k + m)).isOkResp = false) :
    translate_go fetchO mkReq langs k =
      (Except.error (translate_errOf (fetchO (k + m))), (langs.take (m + 1)).map mkReq) := by
  induction langs generalizing k m with
  | nil => simp at hm
  | cons language rest ih =>
      cases m with
      | zero =>
          rw [Nat.add_zero] at hfail
          cases hfk : fetchO k with
          | reject msg => simp [translate_go, hfk, translate_errOf]
          | resp status =>
              rw [hfk] at hfail
              simp only [FetchResult.isOkResp, decide_eq_false_iff_not] at hfail
              simp [translate_go, hfk, translate_errOf, hfail]
      | succ m =>
          have h0 : (fetchO k).isOkResp = true := by
            have := hok 0 (Nat.succ_pos _)
            rwa [Nat.add_zero] at this
          have hok1 : ∀ j, j < m → (fetchO (k + 1 + j)).isOkResp = true := by
            intro j hj
            have := hok (j + 1) (Nat.succ_lt_succ hj)
            rwa [show k + (j + 1) = k + 1 + j by omega] at this
          have hfail1 : (fetchO (k + 1 + m)).isOkResp = false := by
            rwa [show k + (m + 1) = k + 1 + m by omega] at hfail
          have hm1 : m < rest.length := Nat.lt_of_succ_lt_succ hm
          cases hfk : fetchO k with
          | reject msg => rw [hfk] at h0; simp [FetchResult.isOkResp] at h0
          | resp status =>
              rw [hfk] at h0
              simp only [FetchResult.isOkResp, decide_eq_true_eq] at h0
              rw [show k + (m + 1) = k + 1 + m by omega]
              simp [translate_go, hfk, h0, ih (k + 1) m hm1 hok1 hfail1]

/-- C5: with N target languages and every sub-request succeeding, translate
issues exactly N sequential requests, one per language in list order, and the
i-th request carries the i-th language column as output_column. -/
theorem c5_translation_batch (input_json_column : String) (languages : List LanguageEntry)
    (record_id table_id base_id model : String) (record : Record)
    (fetchO : Nat → FetchResult)
    (h : ∀ j, j < languages.length → (fetchO j).isOkResp = true) :
    translate_i18n input_json_column languages record_id table_id base_id model record fetchO =
      (Except.ok (),
       languages.map (translate_mkRequest record_id table_id base_id model
         (jsonStringifyCell (record.getCellValue input_json_column)))) ∧
    (translate_i18n input_json_column languages record_id table_id base_id model record
        fetchO).2.length = languages.length ∧
    ∀ i, i < languages.length →
      ((translate_i18n input_json_column languages record_id table_id base_id model record
          fetchO).2[i]?).map (fun req => req.body.lookupField "output_column") =
        languages[i]?.map (fun language => some (Json.str language.column)) := by
  have hz : ∀ j, j < languages.length → (fetchO (0 + j)).isOkResp = true := by
    intro j hj
    rw [Nat.zero_add]
    exact h j hj
  have key := translate_go_all_ok fetchO
    (translate_mkRequest record_id table_id base_id model
      (jsonStringifyCell (record.getCellValue input_json_column))) languages 0 hz
  refine ⟨key, ?_, ?_⟩
  · simp [translate_i18n, key]
  · intro i hi
    simp only [translate_i18n]
    rw [key]
    simp only [List.getElem?_map]
    cases hg : languages[i]? with
    | none => simp [hg]
    | some language =>
        simp [hg, translate_mkRequest, Json.lookupField]

/-- Witness for c5: two languages, both sub-requests ok, yields two requests
whose output columns are the two language columns in order. -/
theorem c5_witness :
    (translate_i18n "Json" [LanguageEntry.mk "fr_col" "French", LanguageEntry.mk "de_col" "German"]
        "rec1" "tbl1" "app1" "gpt-4o" (Record.mk [("Json", "data")])
        (fun _ => FetchResult.resp 200)).2.length = 2 ∧
    ((translate_i18n "Json" [LanguageEntry.mk "fr_col" "French", LanguageEntry.mk "de_col" "German"]
        "rec1" "tbl1" "app1" "gpt-4o" (Record.mk [("Json", "data")])
        (fun _ => FetchResult.resp 200)).2[0]?).map
        (fun req => req.body.lookupField "output_column") =
      some (some (Json.str "fr_col")) ∧
    ((translate_i18n "Json" [LanguageEntry.mk "fr_col" "French", LanguageEntry.mk "de_col" "German"]
        "rec1" "tbl1" "app1" "gpt-4o" (Record.mk [("Json", "data")])
        (fun _ => FetchResult.resp 200)).2[1]?).map
        (fun req => req.body.lookupField "output_column") =
      some (some (Json.str "de_col")) := by
  have h := c5_translation_batch "Json"
    [LanguageEntry.mk "fr_col" "French", LanguageEntry.mk "de_col" "German"]
    "rec1" "tbl1" "app1" "gpt-4o" (Record.mk [("Json", "data")])
    (fun _ => FetchResult.resp 200) (fun j _ => by simp [FetchResult.isOkResp])
  refine ⟨h.2.1, ?_, ?_⟩
  · rw [h.2.2 0 (by decide)]
    rfl
  · rw [h.2.2 1 (by decide)]
    rfl

/-- C6: if the sub-request of the k-th language fails, by rejection or by a
non-2xx status, translate stops with that error after issuing exactly the
first k + 1 requests; no language after the k-th is attempted. -/
theorem c6_translation_abort (input_json_column : String) (languages : List LanguageEntry)
    (record_id table_id base_id model : String) (record : Record)
    (fetchO : Nat → FetchResult) (k : Nat)
    (hk : k < languages.length)
    (hok : ∀ j, j < k → (fetchO j).isOkResp = true)
    (hfail : (fetchO k).isOkResp = false) :
    (translate_i18n input_json_column languages record_id table_id base_id model record
        fetchO).1 = Except.error (translate_errOf (fetchO k)) ∧
    (translate_i18n input_json_column languages record_id table_id base_id model record
        fetchO).2 =
      (languages.take (k + 1)).map (translate_mkRequest record_id table_id base_id model
        (jsonStringifyCell (record.getCellValue input_json_column))) := by
  have hz : ∀ j, j < k → (fetchO (0 + j)).isOkResp = true := by
    intro j hj
    rw [Nat.zero_add]
    exact hok j hj
  have hfz : (fetchO (0 + k)).isOkResp = false := by
    rwa [Nat.zero_add]
  have key := translate_go_fail fetchO
    (translate_mkRequest record_id table_id base_id model
      (jsonStringifyCell (record.getCellValue input_json_column))) languages 0 k hk hz hfz
  rw [Nat.zero_add] at key
  constructor
  · simp only [translate_i18n]
    rw [key]
  · simp only [translate_i18n]
    rw [key]

/-- Witness for c6: three languages with the second fetch returning 500: the
call fails with the remote error for status 500 and only the first two
requests are issued. -/
theorem c6_witness :
    (translate_i18n "Json"
        [LanguageEntry.mk "fr_col" "French", LanguageEntry.mk "de_col" "German",
         LanguageEntry.mk "es_col" "Spanish"]
        "rec1" "tbl1" "app1" "gpt-4o" (Record.mk [("Json", "data")])
        (fun k => if k = 1 then FetchResult.resp 500 else FetchResult.resp 200)).1 =
      Except.error (JsError.remote 500 "HTTP error! status: 500") ∧
    (translate_i18n "Json"
        [LanguageEntry.mk "fr_col" "French", LanguageEntry.mk "de_col" "German",
         LanguageEntry.mk "es_col" "Spanish"]
        "rec1" "tbl1" "app1" "gpt-4o" (Record.mk [("Json", "data")])
        (fun k => if k = 1 then FetchResult.resp 500 else FetchResult.resp 200)).2.length = 2 := by
  have h := c6_translation_abort "Json"
    [LanguageEntry.mk "fr_col" "French", LanguageEntry.mk "de_col" "German",
     LanguageEntry.mk "es_col" "Spanish"]
    "rec1" "tbl1" "app1" "gpt-4o" (Record.mk [("Json", "data")])
    (fun k => if k = 1 then FetchResult.resp 500 else FetchResult.resp 200) 1
    (by decide) (by decide) (by decide)
  constructor
  · rw [h.1]
    rfl
  · rw [h.2]
    rfl

/-- Helper: when content and author are truthy and the content parses, the
request list of sync_after_provision is exactly the one sync_request, for
every fetch outcome. -/
theorem sync_after_provision_requests
    (lang author_id_column record_id table_id base_id : String) (cols : List String)
    (record : Record) (parse : String → Except String Json) (fr : FetchResult)
    (pcol : String) (created : Bool)
    (hc : jsTruthy (record.getCellValue lang) = true)
    (ha : jsTruthy (record.getCellValue author_id_column) = true)
    (pd : Json) (hp : parse ((record.getCellValue lang).getD "") = Except.ok pd) :
    (sync_after_provision lang author_id_column record_id table_id base_id cols record
        parse fr pcol created).requests =
      [sync_request lang author_id_column record_id table_id base_id record pd pcol] := by
  cases fr with
  | reject msg => simp [sync_after_provision, hc, ha, hp]
  | resp status =>
      by_cases hst : 200 ≤ status ∧ status < 300 <;>
        simp [sync_after_provision, hc, ha, hp, hst]

/-- Helper: with valid content and author and a parsed post, a non-2xx
response makes sync_after_provision fail with the RemoteError carrying the
status. -/
theorem sync_after_provision_remote_error
    (lang author_id_column record_id table_id base_id : String) (cols : List String)
    (record : Record) (parse : String → Except String Json)
    (pcol : String) (created : Bool) (status : Nat)
    (hc : jsTruthy (record.getCellValue lang) = true)
    (ha : jsTruthy (record.getCellValue author_id_column) = true)
    (pd : Json) (hp : parse ((record.getCellValue lang).getD "") = Except.ok pd)
    (hst : ¬(200 ≤ status ∧ status < 300)) :
    (sync_after_provision lang author_id_column record_id table_id base_id cols record
        parse (FetchResult.resp status) pcol created).result =
      Except.error
        (JsError.remote status ("API request failed with status " ++ toString status)) := by
  simp [sync_after_provision, hc, ha, hp, hst]

/-- C8: field auto-provisioning of the sync job is idempotent: starting from a
table whose configuration lacks the post_id_<lang> column, the first call
creates it exactly once, and a second call on the resulting table finds it
present, creates nothing, and leaves the schema unchanged, whatever record,
parse and fetch outcomes the two calls see. -/
theorem c8_provisioning_idempotent
    (lang author_id_column record_id table_id base_id : String)
    (tableCols : List String) (rec1 rec2 : Record)
    (parse1 parse2 : String → Except String Json) (fr1 fr2 : FetchResult)
    (cf2 : Except String Unit)
    (h : tableCols.any (fun column => column == "post_id_" ++ lang) = false) :
    (sync_to_wordpress lang author_id_column record_id table_id base_id tableCols rec1
        (Except.ok ()) parse1 fr1).createdField = true ∧
    (sync_to_wordpress lang author_id_column record_id table_id base_id tableCols rec1
        (Except.ok ()) parse1 fr1).columns = tableCols ++ ["post_id_" ++ lang] ∧
    (sync_to_wordpress lang author_id_column record_id table_id base_id
        (sync_to_wordpress lang author_id_column record_id table_id base_id tableCols rec1
          (Except.ok ()) parse1 fr1).columns rec2 cf2 parse2 fr2).createdField = false ∧
    (sync_to_wordpress lang author_id_column record_id table_id base_id
        (sync_to_wordpress lang author_id_column record_id table_id base_id tableCols rec1
          (Except.ok ()) parse1 fr1).columns rec2 cf2 parse2 fr2).columns =
      (sync_to_wordpress lang author_id_column record_id table_id base_id tableCols rec1
        (Except.ok ()) parse1 fr1).columns := by
  have h1 := sync_to_wordpress_provision_absent lang author_id_column record_id table_id
    base_id tableCols rec1 parse1 fr1 h
  have hstate1 := sync_after_provision_state lang author_id_column record_id table_id base_id
    (tableCols ++ ["post_id_" ++ lang]) rec1 parse1 fr1 ("post_id_" ++ lang) true
  have hcols1 : (sync_to_wordpress lang author_id_column record_id table_id base_id tableCols
      rec1 (Except.ok ()) parse1 fr1).columns = tableCols ++ ["post_id_" ++ lang] := by
    rw [h1]
    exact hstate1.1
  have hcreated1 : (sync_to_wordpress lang author_id_column record_id table_id base_id
      tableCols rec1 (Except.ok ()) parse1 fr1).createdField = true := by
    rw [h1]
    exact hstate1.2
  have hmem : (tableCols ++ ["post_id_" ++ lang]).any
      (fun column => column == "post_id_" ++ lang) = true := by
    simp
  have h2 := sync_to_wordpress_provision_present lang author_id_column record_id table_id
    base_id (tableCols ++ ["post_id_" ++ lang]) rec2 cf2 parse2 fr2 hmem
  have hstate2 := sync_after_provision_state lang author_id_column record_id table_id base_id
    (tableCols ++ ["post_id_" ++ lang]) rec2 parse2 fr2 ("post_id_" ++ lang) false
  refine ⟨hcreated1, hcols1, ?_, ?_⟩
  · rw [hcols1, h2]
    exact hstate2.2
  · rw [hcols1, h2, hstate2.1]

/-- Witness for c8: from an empty column list, the first call creates
post_id_en and the second creates nothing and keeps the schema. -/
theorem c8_witness :
    (sync_to_wordpress "en" "Author" "rec1" "tbl1" "app1" [] (Record.mk [])
        (Except.ok ()) (fun _ => Except.error "unused") (FetchResult.resp 200)).createdField =
      true ∧
    (sync_to_wordpress "en" "Author" "rec1" "tbl1" "app1" [] (Record.mk [])
        (Except.ok ()) (fun _ => Except.error "unused") (FetchResult.resp 200)).columns =
      ["post_id_en"] ∧
    (sync_to_wordpress "en" "Author" "rec1" "tbl1" "app1"
        (sync_to_wordpress "en" "Author" "rec1" "tbl1" "app1" [] (Record.mk [])
          (Except.ok ()) (fun _ => Except.error "unused") (FetchResult.resp 200)).columns
        (Record.mk []) (Except.ok ()) (fun _ => Except.error "unused")
        (FetchResult.resp 200)).createdField = false ∧
    (sync_to_wordpress "en" "Author" "rec1" "tbl1" "app1"
        (sync_to_wordpress "en" "Author" "rec1" "tbl1" "app1" [] (Record.mk [])
          (Except.ok ()) (fun _ => Except.error "unused") (FetchResult.resp 200)).columns
        (Record.mk []) (Except.ok ()) (fun _ => Except.error "unused")
        (FetchResult.resp 200)).columns = ["post_id_en"] := by
  have h := c8_provisioning_idempotent "en" "Author" "rec1" "tbl1" "app1" [] (Record.mk [])
    (Record.mk []) (fun _ => Except.error "unused") (fun _ => Except.error "unused")
    (FetchResult.resp 200) (FetchResult.resp 200) (Except.ok ()) (by decide)
  exact ⟨h.1, h.2.1, h.2.2.1, h.2.2.2.trans h.2.1⟩

/-- C9: for every list of input columns, once the system prompt is found, the
user_msg field of the single posted ai_generate payload is the newline join,
in list order, of one fragment per column of the shape
open-tag, cell value read as a string, close-tag; empty or absent cells
contribute empty tag contents. -/
theorem c9_user_msg_format (input_columns : List String)
    (system_prompt_name output_column record_id table_id base_id model : String)
    (openai_json_format : Bool) (promptsTable : List Record) (record : Record)
    (fr : FetchResult)
    (h : jsTruthy (getSystemPrompt promptsTable system_prompt_name) = true) :
    (ai_generate input_columns system_prompt_name output_column record_id table_id base_id
        model openai_json_format promptsTable record fr).2.map
        (fun req => req.body.lookupField "user_msg") =
      [some (Json.str (String.intercalate "\n"
        (input_columns.map (fun column =>
          "<" ++ column ++ ">" ++ record.getCellValueAsString column ++
            "</" ++ column ++ ">"))))] := by
  cases fr with
  | reject msg => simp [ai_generate, h, ai_user_msg, Json.lookupField]
  | resp status => simp [ai_generate, h, ai_user_msg, Json.lookupField]

/-- Witness for c9: with a present Title cell and an absent Body cell, the
posted user_msg is the two XML fragments joined by a newline, the Body tag
empty. -/
theorem c9_witness :
    (ai_generate ["Title", "Body"] "p" "Out" "rec1" "tbl1" "app1" "gpt-4o" false
        [Record.mk [("Name", "p"), ("Prompt", "sys")]]
        (Record.mk [("Title", "Hello")]) (FetchResult.resp 200)).2.map
        (fun req => req.body.lookupField "user_msg") =
      [some (Json.str "<Title>Hello</Title>\n<Body></Body>")] := by
  have h := c9_user_msg_format ["Title", "Body"] "p" "Out" "rec1" "tbl1" "app1" "gpt-4o"
    false [Record.mk [("Name", "p"), ("Prompt", "sys")]]
    (Record.mk [("Title", "Hello")]) (FetchResult.resp 200) (by decide)
  rw [h]
  rfl

/-- C10: the sync job is not atomic on validation failure: with the
post_id_<lang> column absent and the content cell empty (or the author cell
empty), the call still creates the column, mutating the table schema, and then
fails with the ValidationError without issuing any HTTP request. -/
theorem c10_sync_not_atomic
    (lang author_id_column record_id table_id base_id : String)
    (tableCols : List String) (record : Record) (parse : String → Except String Json)
    (fr : FetchResult)
    (h : tableCols.any (fun column => column == "post_id_" ++ lang) = false) :
    (jsTruthy (record.getCellValue lang) = false →
      sync_to_wordpress lang author_id_column record_id table_id base_id tableCols record
          (Except.ok ()) parse fr =
        { result := Except.error (JsError.validation "No content found")
          requests := []
          columns := tableCols ++ ["post_id_" ++ lang]
          createdField := true }) ∧
    (jsTruthy (record.getCellValue lang) = true →
      jsTruthy (record.getCellValue author_id_column) = false →
      sync_to_wordpress lang author_id_column record_id table_id base_id tableCols record
          (Except.ok ()) parse fr =
        { result := Except.error (JsError.validation "No author ID found")
          requests := []
          columns := tableCols ++ ["post_id_" ++ lang]
          createdField := true }) := by
  constructor
  · intro hc
    rw [sync_to_wordpress_provision_absent _ _ _ _ _ _ _ _ _ h,
      sync_after_provision_no_content _ _ _ _ _ _ _ _ _ _ _ hc]
  · intro hc ha
    rw [sync_to_wordpress_provision_absent _ _ _ _ _ _ _ _ _ h,
      sync_after_provision_no_author _ _ _ _ _ _ _ _ _ _ _ hc ha]

/-- Witness for c10: with no post_id_fr column and an empty fr content cell,
the call creates post_id_fr, issues nothing, and errors. -/
theorem c10_witness :
    sync_to_wordpress "fr" "Author" "rec1" "tbl1" "app1" ["post_id_en"] (Record.mk [])
        (Except.ok ()) (fun _ => Except.error "unused") (FetchResult.resp 200) =
      { result := Except.error (JsError.validation "No content found")
        requests := []
        columns := ["post_id_en", "post_id_fr"]
        createdField := true } := by
  have h := c10_sync_not_atomic "fr" "Author" "rec1" "tbl1" "app1" ["post_id_en"]
    (Record.mk []) (fun _ => Except.error "unused") (FetchResult.resp 200) (by decide)
  exact (h.1 (by decide)).trans rfl

/-- Counterexample to C3 as stated: for the keyword-search variant a valid
call that receives HTTP 500 succeeds: google_search never reads response.ok,
so no RemoteError is raised although a non-2xx response arrived (one request
was issued); ai_generate behaves the same way. -/
theorem c3_counterexample :
    (google_search "Kw" "Out" "rec1" "tbl1" "app1" (Record.mk [("Kw", "cats")])
        (FetchResult.resp 500)).1 = Except.ok () ∧
    (google_search "Kw" "Out" "rec1" "tbl1" "app1" (Record.mk [("Kw", "cats")])
        (FetchResult.resp 500)).2.length = 1 ∧
    (ai_generate ["Topic"] "p" "Out" "rec1" "tbl1" "app1" "gpt-4o" false
        [Record.mk [("Name", "p"), ("Prompt", "sys")]]
        (Record.mk [("Topic", "castles")]) (FetchResult.resp 500)).1 = Except.ok () := by
  refine ⟨rfl, rfl, rfl⟩

/-- C3 amended: the four variants that read response.ok, namely the map-image,
URL-crawl, translation and CMS-sync variants, fail with a RemoteError carrying
the status code whenever the response status is not 2xx; the AI-generate and
keyword-search variants ignore the response status entirely. -/
theorem c3_status_checking_variants
    (tpl_column prompt_column output_column record_id table_id base_id : String)
    (record : Record)
    (cic coc : String) (crec : Record)
    (input_json_column tmodel : String) (languages : List LanguageEntry)
    (language : LanguageEntry) (rest : List LanguageEntry) (lrec : Record)
    (fetchO : Nat → FetchResult)
    (lang author_id_column : String) (tableCols : List String) (srec : Record)
    (parse : String → Except String Json) (pd : Json)
    (status : Nat) (hst : ¬(200 ≤ status ∧ status < 300)) :
    (jsTruthy (record.getCellValue tpl_column) = true →
      jsTruthy (record.getCellValue prompt_column) = true →
      (create_map_image tpl_column prompt_column output_column record_id table_id base_id
          record (RaceOutcome.fetchFirst status)).1 =
        Except.error
          (JsError.remote status ("API request failed with status " ++ toString status))) ∧
    (jsTruthy (crec.getCellValue cic) = true →
      (crawl_url_content cic coc record_id table_id base_id crec (FetchResult.resp status)).1 =
        Except.error
          (JsError.remote status ("API request failed with status " ++ toString status))) ∧
    (languages = language :: rest →
      fetchO 0 = FetchResult.resp status →
      (translate_i18n input_json_column languages record_id table_id base_id tmodel lrec
          fetchO).1 =
        Except.error (JsError.remote status ("HTTP error! status: " ++ toString status))) ∧
    (jsTruthy (srec.getCellValue lang) = true →
      jsTruthy (srec.getCellValue author_id_column) = true →
      parse ((srec.getCellValue lang).getD "") = Except.ok pd →
      (sync_to_wordpress lang author_id_column record_id table_id base_id tableCols srec
          (Except.ok ()) parse (FetchResult.resp status)).result =
        Except.error
          (JsError.remote status ("API request failed with status " ++ toString status))) := by
  refine ⟨?_, ?_, ?_, ?_⟩
  · intro h1 h2
    simp [create_map_image, h1, h2, hst]
  · intro h
    simp [crawl_url_content, h, hst]
  · intro hl hf
    subst hl
    have hfail : (fetchO (0 + 0)).isOkResp = false := by
      rw [Nat.add_zero, hf]
      simp [FetchResult.isOkResp, hst]
    have key := translate_go_fail fetchO
      (translate_mkRequest record_id table_id base_id tmodel
        (jsonStringifyCell (lrec.getCellValue input_json_column)))
      (language :: rest) 0 0 (Nat.succ_pos _)
      (fun j hj => absurd hj (Nat.not_lt_zero j)) hfail
    simp only [translate_i18n]
    rw [key]
    simp [translate_errOf, hf]
  · intro hc ha hp
    cases hany : tableCols.any (fun column => column == "post_id_" ++ lang) with
    | true =>
        rw [sync_to_wordpress_provision_present _ _ _ _ _ _ _ _ _ _ hany]
        exact sync_after_provision_remote_error _ _ _ _ _ _ _ _ _ _ _ hc ha pd hp hst
    | false =>
        rw [sync_to_wordpress_provision_absent _ _ _ _ _ _ _ _ _ hany]
        exact sync_after_provision_remote_error _ _ _ _ _ _ _ _ _ _ _ hc ha pd hp hst

/-- Witness for the amended c3: concrete 500 responses produce the RemoteError
with status 500 in each of the four status-checking variants. -/
theorem c3_witness :
    ((create_map_image "Tpl" "Prompt" "Out" "rec1" "tbl1" "app1"
        (Record.mk [("Tpl", "castle"), ("Prompt", "sunset")])
        (RaceOutcome.fetchFirst 500)).1 =
      Except.error (JsError.remote 500 "API request failed with status 500")) ∧
    ((crawl_url_content "Url" "Out" "rec1" "tbl1" "app1"
        (Record.mk [("Url", "https://x.example")]) (FetchResult.resp 500)).1 =
      Except.error (JsError.remote 500 "API request failed with status 500")) ∧
    ((translate_i18n "Json" [LanguageEntry.mk "fr_col" "French"] "rec1" "tbl1" "app1"
        "gpt-4o" (Record.mk [("Json", "data")]) (fun _ => FetchResult.resp 500)).1 =
      Except.error (JsError.remote 500 "HTTP error! status: 500")) ∧
    ((sync_to_wordpress "en" "Author" "rec1" "tbl1" "app1" ["post_id_en"]
        (Record.mk [("en", "x"), ("Author", "7")]) (Except.ok ())
        (fun _ => Except.ok (Json.obj [])) (FetchResult.resp 500)).result =
      Except.error (JsError.remote 500 "API request failed with status 500")) := by
  have h := c3_status_checking_variants "Tpl" "Prompt" "Out" "rec1" "tbl1" "app1"
    (Record.mk [("Tpl", "castle"), ("Prompt", "sunset")])
    "Url" "Out" (Record.mk [("Url", "https://x.example")])
    "Json" "gpt-4o" [LanguageEntry.mk "fr_col" "French"] (LanguageEntry.mk "fr_col" "French")
    [] (Record.mk [("Json", "data")]) (fun _ => FetchResult.resp 500)
    "en" "Author" ["post_id_en"] (Record.mk [("en", "x"), ("Author", "7")])
    (fun _ => Except.ok (Json.obj [])) (Json.obj []) 500 (by decide)
  exact ⟨h.1 (by decide) (by decide), h.2.1 (by decide), h.2.2.1 rfl rfl,
    h.2.2.2 (by decide) (by decide) rfl⟩

/-- Counterexample to C2 as stated: in the sync variant the payload carries no
output_column field; the output field name it carries, under post_id_column,
is the derived post_id_en, which equals none of the arguments passed to the
call (en, Author, rec1, tbl1, app1). -/
theorem c2_counterexample :
    ((sync_to_wordpress "en" "Author" "rec1" "tbl1" "app1" ["post_id_en"]
        (Record.mk [("en", "x"), ("Author", "7")]) (Except.ok ())
        (fun _ => Except.ok (Json.obj [])) (FetchResult.resp 200)).requests.map
        (fun req => (req.body.lookupField "post_id_column",
          req.body.lookupField "output_column"))) =
      [(some (Json.str "post_id_en"), none)] ∧
    ("post_id_en" ≠ "en" ∧ "post_id_en" ≠ "Author" ∧ "post_id_en" ≠ "rec1" ∧
      "post_id_en" ≠ "tbl1" ∧ "post_id_en" ≠ "app1") := by
  exact ⟨rfl, by decide, by decide, by decide, by decide, by decide⟩

/-- C2 amended: for every variant and every valid input, each posted payload
carries the base ID, table ID and record ID verbatim from the arguments,
together with the output field name the variant targets: the output_column
argument for the map-image, AI-generate, keyword-search and URL-crawl
variants, the language entry column for each translation sub-request, and the
derived post_id_<lang> name, sent under the post_id_column key, for the sync
variant. -/
theorem c2_payload_identifiers
    (tpl_column prompt_column output_column record_id table_id base_id : String)
    (record : Record) (race : RaceOutcome)
    (input_columns : List String) (system_prompt_name amodel : String)
    (openai_json_format : Bool) (promptsTable : List Record) (arec : Record)
    (afr : FetchResult)
    (gic : String) (grec : Record) (gfr : FetchResult)
    (cic : String) (crec : Record) (cfr : FetchResult)
    (input_json_column tmodel : String) (languages : List LanguageEntry) (lrec : Record)
    (fetchO : Nat → FetchResult)
    (lang author_id_column : String) (tableCols : List String) (srec : Record)
    (parse : String → Except String Json) (pd : Json) (sfr : FetchResult) :
    (jsTruthy (record.getCellValue tpl_column) = true →
      jsTruthy (record.getCellValue prompt_column) = true →
      (create_map_image tpl_column prompt_column output_column record_id table_id base_id
          record race).2.map (fun req =>
          (req.body.lookupField "base_id", req.body.lookupField "table_id",
           req.body.lookupField "record_id", req.body.lookupField "output_column")) =
        [(some (Json.str base_id), some (Json.str table_id), some (Json.str record_id),
          some (Json.str output_column))]) ∧
    (jsTruthy (getSystemPrompt promptsTable system_prompt_name) = true →
      (ai_generate input_columns system_prompt_name output_column record_id table_id base_id
          amodel openai_json_format promptsTable arec afr).2.map (fun req =>
          (req.body.lookupField "base_id", req.body.lookupField "table_id",
           req.body.lookupField "record_id", req.body.lookupField "output_column")) =
        [(some (Json.str base_id), some (Json.str table_id), some (Json.str record_id),
          some (Json.str output_column))]) ∧
    (grec.getCellValueAsString gic ≠ "" →
      (google_search gic output_column record_id table_id base_id grec gfr).2.map (fun req =>
          (req.body.lookupField "base_id", req.body.lookupField "table_id",
           req.body.lookupField "record_id", req.body.lookupField "output_column")) =
        [(some (Json.str base_id), some (Json.str table_id), some (Json.str record_id),
          some (Json.str output_column))]) ∧
    (jsTruthy (crec.getCellValue cic) = true →
      (crawl_url_content cic output_column record_id table_id base_id crec cfr).2.map
          (fun req =>
          (req.body.lookupField "base_id", req.body.lookupField "table_id",
           req.body.lookupField "record_id", req.body.lookupField "output_column")) =
        [(some (Json.str base_id), some (Json.str table_id), some (Json.str record_id),
          some (Json.str output_column))]) ∧
    ((∀ j, j < languages.length → (fetchO j).isOkResp = true) →
      (translate_i18n input_json_column languages record_id table_id base_id tmodel lrec
          fetchO).2.map (fun req =>
          (req.body.lookupField "base_id", req.body.lookupField "table_id",
           req.body.lookupField "record_id", req.body.lookupField "output_column")) =
        languages.map (fun language =>
          (some (Json.str base_id), some (Json.str table_id), some (Json.str record_id),
           some (Json.str language.column)))) ∧
    (jsTruthy (srec.getCellValue lang) = true →
      jsTruthy (srec.getCellValue author_id_column) = true →
      parse ((srec.getCellValue lang).getD "") = Except.ok pd →
      (sync_to_wordpress lang author_id_column record_id table_id base_id tableCols srec
          (Except.ok ()) parse sfr).requests.map (fun req =>
          (req.body.lookupField "base_id", req.body.lookupField "table_id",
           req.body.lookupField "record_id", req.body.lookupField "post_id_column")) =
        [(some (Json.str base_id), some (Json.str table_id), some (Json.str record_id),
          some (Json.str ("post_id_" ++ lang)))]) := by
  refine ⟨?_, ?_, ?_, ?_, ?_, ?_⟩
  · intro h1 h2
    cases race with
    | timerFirst => simp [create_map_image, h1, h2, Json.lookupField]
    | fetchErrFirst msg => simp [create_map_image, h1, h2, Json.lookupField]
    | fetchFirst status =>
        by_cases hs : 200 ≤ status ∧ status < 300 <;>
          simp [create_map_image, h1, h2, hs, Json.lookupField]
  · intro h
    cases afr with
    | reject msg => simp [ai_generate, h, Json.lookupField]
    | resp status => simp [ai_generate, h, Json.lookupField]
  · intro h
    cases gfr with
    | reject msg => simp [google_search, h, Json.lookupField]
    | resp status => simp [google_search, h, Json.lookupField]
  · intro h
    cases cfr with
    | reject msg => simp [crawl_url_content, h, Json.lookupField]
    | resp status =>
        by_cases hs : 200 ≤ status ∧ status < 300 <;>
          simp [crawl_url_content, h, hs, Json.lookupField]
  · intro h
    have hz : ∀ j, j < languages.length → (fetchO (0 + j)).isOkResp = true := by
      intro j hj
      rw [Nat.zero_add]
      exact h j hj
    have key := translate_go_all_ok fetchO
      (translate_mkRequest record_id table_id base_id tmodel
        (jsonStringifyCell (lrec.getCellValue input_json_column))) languages 0 hz
    simp only [translate_i18n]
    rw [key]
    rw [List.map_map]
    rfl
  · intro hc ha hp
    cases hany : tableCols.any (fun column => column == "post_id_" ++ lang) with
    | true =>
        rw [sync_to_wordpress_provision_present _ _ _ _ _ _ _ _ _ _ hany,
          sync_after_provision_requests _ _ _ _ _ _ _ _ _ _ _ hc ha pd hp]
        rfl
    | false =>
        rw [sync_to_wordpress_provision_absent _ _ _ _ _ _ _ _ _ hany,
          sync_after_provision_requests _ _ _ _ _ _ _ _ _ _ _ hc ha pd hp]
        rfl

/-- Witness for the amended c2: one concrete valid call per variant, each
payload carrying app1, tbl1, rec1 and the targeted output field name. -/
theorem c2_witness :
    ((create_map_image "Tpl" "Prompt" "Out" "rec1" "tbl1" "app1"
        (Record.mk [("Tpl", "castle"), ("Prompt", "sunset")])
        (RaceOutcome.fetchFirst 200)).2.map (fun req =>
        (req.body.lookupField "base_id", req.body.lookupField "table_id",
         req.body.lookupField "record_id", req.body.lookupField "output_column")) =
      [(some (Json.str "app1"), some (Json.str "tbl1"), some (Json.str "rec1"),
        some (Json.str "Out"))]) ∧
    ((ai_generate ["Topic"] "p" "Out" "rec1" "tbl1" "app1" "gpt-4o" false
        [Record.mk [("Name", "p"), ("Prompt", "sys")]] (Record.mk [("Topic", "castles")])
        (FetchResult.resp 200)).2.map (fun req =>
        (req.body.lookupField "base_id", req.body.lookupField "table_id",
         req.body.lookupField "record_id", req.body.lookupField "output_column")) =
      [(some (Json.str "app1"), some (Json.str "tbl1"), some (Json.str "rec1"),
        some (Json.str "Out"))]) ∧
    ((google_search "Kw" "Out" "rec1" "tbl1" "app1" (Record.mk [("Kw", "cats")])
        (FetchResult.resp 200)).2.map (fun req =>
        (req.body.lookupField "base_id", req.body.lookupField "table_id",
         req.body.lookupField "record_id", req.body.lookupField "output_column")) =
      [(some (Json.str "app1"), some (Json.str "tbl1"), some (Json.str "rec1"),
        some (Json.str "Out"))]) ∧
    ((crawl_url_content "Url" "Out" "rec1" "tbl1" "app1"
        (Record.mk [("Url", "https://x.example")]) (FetchResult.resp 200)).2.map (fun req =>
        (req.body.lookupField "base_id", req.body.lookupField "table_id",
         req.body.lookupField "record_id", req.body.lookupField "output_column")) =
      [(some (Json.str "app1"), some (Json.str "tbl1"), some (Json.str "rec1"),
        some (Json.str "Out"))]) ∧
    ((translate_i18n "Json" [LanguageEntry.mk "fr_col" "French"] "rec1" "tbl1" "app1"
        "gpt-4o" (Record.mk [("Json", "data")]) (fun _ => FetchResult.resp 200)).2.map
        (fun req =>
        (req.body.lookupField "base_id", req.body.lookupField "table_id",
         req.body.lookupField "record_id", req.body.lookupField "output_column")) =
      [(some (Json.str "app1"), some (Json.str "tbl1"), some (Json.str "rec1"),
        some (Json.str "fr_col"))]) ∧
    ((sync_to_wordpress "en" "Author" "rec1" "tbl1" "app1" ["post_id_en"]
        (Record.mk [("en", "x"), ("Author", "7")]) (Except.ok ())
        (fun _ => Except.ok (Json.obj [])) (FetchResult.resp 200)).requests.map (fun req =>
        (req.body.lookupField "base_id", req.body.lookupField "table_id",
         req.body.lookupField "record_id", req.body.lookupField "post_id_column")) =
      [(some (Json.str "app1"), some (Json.str "tbl1"), some (Json.str "rec1"),
        some (Json.str "post_id_en"))]) := by
  have h := c2_payload_identifiers "Tpl" "Prompt" "Out" "rec1" "tbl1" "app1"
    (Record.mk [("Tpl", "castle"), ("Prompt", "sunset")]) (RaceOutcome.fetchFirst 200)
    ["Topic"] "p" "gpt-4o" false [Record.mk [("Name", "p"), ("Prompt", "sys")]]
    (Record.mk [("Topic", "castles")]) (FetchResult.resp 200)
    "Kw" (Record.mk [("Kw", "cats")]) (FetchResult.resp 200)
    "Url" (Record.mk [("Url", "https://x.example")]) (FetchResult.resp 200)
    "Json" "gpt-4o" [LanguageEntry.mk "fr_col" "French"] (Record.mk [("Json", "data")])
    (fun _ => FetchResult.resp 200)
    "en" "Author" ["post_id_en"] (Record.mk [("en", "x"), ("Author", "7")])
    (fun _ => Except.ok (Json.obj [])) (Json.obj []) (FetchResult.resp 200)
  exact ⟨h.1 (by decide) (by decide), h.2.1 (by decide), h.2.2.1 (by decide),
    h.2.2.2.1 (by decide),
    (h.2.2.2.2.1 (fun j _ => by simp [FetchResult.isOkResp])).trans rfl,
    h.2.2.2.2.2 (by decide) (by decide) rfl⟩
